import Mathlib

/-!
Shallow embedding of the `preview-camera` Capacitor plugin.

The embedded code comes from two source files:
* the iOS plugin layer `PreviewCameraPlugin` (Swift) together with the
  TypeScript plugin interface (`definitions.ts`), and
* the web implementation `PreviewCameraWeb` (TypeScript).

The inner native implementation class `PreviewCamera`, the `CameraSettings`
struct, the `CameraDirection` / `CameraResultType` enums and the
`PreviewCameraError` type are not part of the given sources; where a
property depends on them they are modelled from the specification and the
corresponding definitions carry a `Modelled from the spec:` doc comment.
Where possible the unknown inner behaviour is instead passed in as a
parameter (for example the result of `previewCamera?.getFlashModes()`),
so that no behaviour is invented.
-/

/-- Outcome of a Capacitor plugin call: the bridge call is either resolved,
rejected with a message, or left pending forever (neither `call.resolve()`
nor `call.reject()` was ever invoked on it). -/
inductive CallOutcome where
  | resolved : CallOutcome
  | rejected : String → CallOutcome
  | pending : CallOutcome
deriving DecidableEq, Repr

/-- Modelled from the spec: the capture session lifecycle states of the
`CaptureSessionController` state machine (section 4.4), with `Stopped`
behaving like `Idle` for subsequent operations. -/
inductive SessionState where
  | idle : SessionState
  | previewing : SessionState
  | capturing : SessionState
  | recording : SessionState
  | stopped : SessionState
deriving DecidableEq, Repr

/-- Modelled from the spec: the error taxonomy of section 7; the native
`PreviewCameraError` enum is not among the given sources. -/
inductive PreviewCameraError where
  | notInitialized : PreviewCameraError
  | permissionDenied : PreviewCameraError
  | hardwareUnavailable : PreviewCameraError
  | deviceUnavailable : PreviewCameraError
  | captureInProgress : PreviewCameraError
  | recordingInProgress : PreviewCameraError
  | notRecording : PreviewCameraError
deriving DecidableEq, Repr

/-- Modelled from the spec: every failure carries a descriptive,
human-readable message (section 7); the message of `notInitialized` is the
one the plugin layer itself uses. -/
def PreviewCameraError.message : PreviewCameraError → String
  | .notInitialized => "Preview Camera not initialized"
  | .permissionDenied => "User denied access to camera"
  | .hardwareUnavailable => "Camera not available while running in Simulator"
  | .deviceUnavailable => "Camera not available for the requested direction"
  | .captureInProgress => "Capture already in progress"
  | .recordingInProgress => "Recording already in progress"
  | .notRecording => "Not recording"

/-- The camera authorization states reported by
`AVCaptureDevice.authorizationStatus(for: .video)`. -/
inductive AuthStatus where
  | notDetermined : AuthStatus
  | restricted : AuthStatus
  | denied : AuthStatus
  | authorized : AuthStatus
deriving DecidableEq, Repr

/-- The environment `startPreview` consults before touching hardware:
the `Info.plist` usage-description check (`checkUsageDescriptions()`),
`bridge?.isSimEnvironment` (`none` when the bridge is unavailable), and the
current camera authorization status. -/
structure StartPreviewEnv where
  missingUsageDescription : Option String
  isSimEnvironment : Option Bool
  authStatus : AuthStatus
deriving DecidableEq, Repr

/-- Result of a `startPreview` invocation: the call outcome, the session
state afterwards, and whether `previewCamera?.startCameraPreview` was
invoked at all (i.e. whether any hardware side effect could have occurred). -/
structure StartResult where
  outcome : CallOutcome
  state : SessionState
  hardwareStarted : Bool
deriving DecidableEq, Repr

/-- `PreviewCameraPlugin.startPreview` (Swift plugin layer). `granted` is the
answer delivered to the `AVCaptureDevice.requestAccess` completion handler,
and `inner` is the result of `previewCamera?.startCameraPreview(settings:)`;
both are passed in as parameters because they come from outside the plugin
layer. When access is not granted the completion handler does nothing, so
the call stays pending. -/
def PreviewCameraPlugin.startPreview (env : StartPreviewEnv) (granted : Bool)
    (inner : Except PreviewCameraError Unit) (st : SessionState) : StartResult :=
  match env.missingUsageDescription with
  | some msg => ⟨.rejected msg, st, false⟩
  | none =>
    if env.isSimEnvironment.getD false then
      ⟨.rejected "Camera not available while running in Simulator", st, false⟩
    else if env.authStatus = .restricted ∨ env.authStatus = .denied then
      ⟨.rejected "User denied access to camera", st, false⟩
    else if granted then
      match inner with
      | .ok _ => ⟨.resolved, .previewing, true⟩
      | .error e => ⟨.rejected e.message, st, true⟩
    else
      ⟨.pending, st, false⟩

/-- How the suspended `startPreview` call resolves once the permission prompt
has answered with `granted`: this is exactly the body of the
`requestAccess` completion handler. -/
def PreviewCameraPlugin.promptResolution (granted : Bool)
    (inner : Except PreviewCameraError Unit) (st : SessionState) : StartResult :=
  if granted then
    match inner with
    | .ok _ => ⟨.resolved, .previewing, true⟩
    | .error e => ⟨.rejected e.message, st, true⟩
  else
    ⟨.pending, st, false⟩

/-- Claim C1: in an environment reporting no camera hardware (simulated
environment), `startPreview` rejects with the hardware-unavailable message,
the session state remains `Idle`, and no hardware side effect occurs
(`startCameraPreview` is never invoked). The usage-description gate is
out of scope for the session controller and is assumed to pass. -/
theorem startPreview_simulator_rejects (env : StartPreviewEnv) (granted : Bool)
    (inner : Except PreviewCameraError Unit) (st : SessionState)
    (husage : env.missingUsageDescription = none)
    (hsim : env.isSimEnvironment = some true)
    (hst : st = .idle) :
    PreviewCameraPlugin.startPreview env granted inner st =
      ⟨.rejected PreviewCameraError.hardwareUnavailable.message, .idle, false⟩ := by
  subst hst
  unfold PreviewCameraPlugin.startPreview
  rw [husage, hsim]
  rfl

/-- Witness for C1: a concrete simulated environment. -/
theorem startPreview_simulator_rejects_witness :
    (StartPreviewEnv.mk none (some true) .notDetermined).missingUsageDescription = none ∧
    (StartPreviewEnv.mk none (some true) .notDetermined).isSimEnvironment = some true ∧
    PreviewCameraPlugin.startPreview ⟨none, some true, .notDetermined⟩ true (.ok ()) .idle =
      ⟨.rejected PreviewCameraError.hardwareUnavailable.message, .idle, false⟩ :=
  ⟨rfl, rfl,
    startPreview_simulator_rejects ⟨none, some true, .notDetermined⟩ true (.ok ()) .idle
      rfl rfl rfl⟩

/-- Claim C2: with the usage-description and simulator gates passed, a
`startPreview` under denied or restricted camera authorization rejects with
the permission-denied message before any device is acquired or preview is
attached (no hardware side effect, state unchanged); otherwise the result
is exactly the resolution of the permission prompt, which genuinely depends
on the prompt's answer (so the result is not determined until the prompt
resolves). -/
theorem startPreview_permission (env : StartPreviewEnv) (granted : Bool)
    (inner : Except PreviewCameraError Unit) (st : SessionState)
    (husage : env.missingUsageDescription = none)
    (hsim : env.isSimEnvironment.getD false = false) :
    ((env.authStatus = .restricted ∨ env.authStatus = .denied) →
      PreviewCameraPlugin.startPreview env granted inner st =
        ⟨.rejected PreviewCameraError.permissionDenied.message, st, false⟩) ∧
    (¬(env.authStatus = .restricted ∨ env.authStatus = .denied) →
      PreviewCameraPlugin.startPreview env granted inner st =
        PreviewCameraPlugin.promptResolution granted inner st ∧
      PreviewCameraPlugin.promptResolution true inner st ≠
        PreviewCameraPlugin.promptResolution false inner st) := by
  constructor
  · intro hauth
    unfold PreviewCameraPlugin.startPreview
    rw [husage]
    simp only [hsim, if_false, Bool.false_eq_true]
    rw [if_pos hauth]
    rfl
  · intro hauth
    refine ⟨?_, ?_⟩
    · unfold PreviewCameraPlugin.startPreview PreviewCameraPlugin.promptResolution
      rw [husage]
      simp only [hsim, if_false, Bool.false_eq_true]
      rw [if_neg hauth]
    · unfold PreviewCameraPlugin.promptResolution
      cases inner with
      | ok _ => simp
      | error e => simp

/-- Witness for C2: a concrete environment with denied authorization. -/
theorem startPreview_permission_witness :
    (StartPreviewEnv.mk none none .denied).missingUsageDescription = none ∧
    (StartPreviewEnv.mk none none .denied).isSimEnvironment.getD false = false ∧
    PreviewCameraPlugin.startPreview ⟨none, none, .denied⟩ true (.ok ()) .idle =
      ⟨.rejected PreviewCameraError.permissionDenied.message, .idle, false⟩ :=
  ⟨rfl, rfl,
    (startPreview_permission ⟨none, none, .denied⟩ true (.ok ()) .idle rfl rfl).1
      (Or.inr rfl)⟩

/-- Modelled from the spec: `PreviewCamera.stopPreviewCamera` is not among
the given sources. Section 4.4: `stopPreview` fails with `NotInitialized`
if the state is `Idle` (or the equivalent `Stopped`); stopping mid-capture
fails with `CaptureInProgress` (section 5); from `Previewing` it releases
the device and transitions to `Stopped`. -/
def PreviewCamera.stopPreviewCamera : SessionState → Except PreviewCameraError SessionState
  | .idle => .error .notInitialized
  | .stopped => .error .notInitialized
  | .capturing => .error .captureInProgress
  | .recording => .error .captureInProgress
  | .previewing => .ok .stopped

/-- Result of a `stopPreview` invocation: call outcome, session state
afterwards, and whether the device was released (the success path of
`stopPreviewCamera`). -/
structure StopResult where
  outcome : CallOutcome
  state : SessionState
  deviceReleased : Bool
deriving DecidableEq, Repr

/-- `PreviewCameraPlugin.stopPreview` (Swift plugin layer): rejects with
"Preview Camera not initialized" when the `previewCamera` implementation
object is absent (`load()` failed); otherwise runs
`implementation.stopPreviewCamera()` and resolves on success or rejects
with the thrown error's message. -/
def PreviewCameraPlugin.stopPreview (loaded : Bool) (st : SessionState) : StopResult :=
  if loaded then
    match PreviewCamera.stopPreviewCamera st with
    | .ok st' => ⟨.resolved, st', true⟩
    | .error e => ⟨.rejected e.message, st, false⟩
  else
    ⟨.rejected "Preview Camera not initialized", st, false⟩

/-- Claim C6: `stopPreview` in `Idle`/`Stopped` rejects with the
not-initialized message, leaves the state unchanged and releases no device;
in particular a second `stopPreview` right after a successful one (which
moved `Previewing` to `Stopped`) rejects the same way, so the device is
never double-released. -/
theorem stopPreview_notInitialized (loaded : Bool) (st : SessionState)
    (h : st = .idle ∨ st = .stopped) :
    PreviewCameraPlugin.stopPreview loaded st =
      ⟨.rejected PreviewCameraError.notInitialized.message, st, false⟩ ∧
    PreviewCameraPlugin.stopPreview true .previewing = ⟨.resolved, .stopped, true⟩ ∧
    PreviewCameraPlugin.stopPreview true
        (PreviewCameraPlugin.stopPreview true .previewing).state =
      ⟨.rejected PreviewCameraError.notInitialized.message, .stopped, false⟩ := by
  refine ⟨?_, rfl, rfl⟩
  rcases h with h | h <;> subst h <;> cases loaded <;> rfl

/-- Witness for C6: the idle state. -/
theorem stopPreview_notInitialized_witness :
    (SessionState.idle = SessionState.idle ∨ SessionState.idle = SessionState.stopped) ∧
    PreviewCameraPlugin.stopPreview true .idle =
      ⟨.rejected PreviewCameraError.notInitialized.message, .idle, false⟩ :=
  ⟨Or.inl rfl, (stopPreview_notInitialized true .idle (Or.inl rfl)).1⟩

/-- `PreviewCameraPlugin.getFlashModes` (Swift plugin layer): runs
`try self.previewCamera?.getFlashModes()` and resolves, rejecting with the
error's message when the inner query throws. `inner` is the result of the
inner flash-availability query, passed in because `PreviewCamera` is not
among the given sources; when the implementation object is absent the
optional chain does nothing and the call resolves. -/
def PreviewCameraPlugin.getFlashModes (loaded : Bool)
    (inner : Except PreviewCameraError Unit) : CallOutcome :=
  if loaded then
    match inner with
    | .ok _ => .resolved
    | .error e => .rejected e.message
  else
    .resolved

/-- `PreviewCameraPlugin.setFlashModes` (Swift plugin layer): its body also
runs `try self.previewCamera?.getFlashModes()` — the mode argument carried
by the call is never read. -/
def PreviewCameraPlugin.setFlashModes (_mode : Option String) (loaded : Bool)
    (inner : Except PreviewCameraError Unit) : CallOutcome :=
  if loaded then
    match inner with
    | .ok _ => .resolved
    | .error e => .rejected e.message
  else
    .resolved

/-- Claim C7: for every mode argument, `setFlashModes` performs the same
inner operation as `getFlashModes` (the flash-availability query) and the
two entry points produce identical call outcomes; in particular the outcome
is independent of the supplied mode. -/
theorem setFlashModes_eq_getFlashModes (mode : Option String) (loaded : Bool)
    (inner : Except PreviewCameraError Unit) :
    PreviewCameraPlugin.setFlashModes mode loaded inner =
      PreviewCameraPlugin.getFlashModes loaded inner := rfl

/-- Modelled from the spec: `PreviewCamera.focus` is not among the given
sources. Section 4.4: out-of-range coordinates are clamped into
`[0,1] × [0,1]` before use. -/
def PreviewCamera.focus (x y : ℚ) : ℚ × ℚ :=
  (max 0 (min 1 x), max 0 (min 1 y))

/-- `PreviewCameraPlugin.focus` (Swift plugin layer): resolves immediately
when the `x` or the `y` option is missing; when both are present it invokes
`self.previewCamera?.focus(x, y)` and then returns without ever resolving
or rejecting the call, so the call stays pending. The second component is
the focus point handed to the device, `none` when the inner focus was not
invoked. -/
def PreviewCameraPlugin.focus (x y : Option ℚ) : CallOutcome × Option (ℚ × ℚ) :=
  match x with
  | none => (.resolved, none)
  | some xv =>
    match y with
    | none => (.resolved, none)
    | some yv => (.pending, some (PreviewCamera.focus xv yv))

/-- Claim C5 (code bug): a well-formed `focus(0.5, 0.5)` call is left
pending — the plugin layer never resolves it, although the clamped focus
point is applied (shown here at the out-of-range input `(2, -1)`, which is
clamped to `(1, 0)`); `pending` is not a successful completion. -/
theorem focus_call_left_pending :
    (PreviewCameraPlugin.focus (some (1 / 2)) (some (1 / 2))).1 = .pending ∧
    (PreviewCameraPlugin.focus (some 2) (some (-1))).2 = some (1, 0) ∧
    CallOutcome.pending ≠ CallOutcome.resolved := by
  refine ⟨rfl, ?_, by decide⟩
  show some (PreviewCamera.focus 2 (-1)) = some (1, 0)
  norm_num [PreviewCamera.focus]

/-- Modelled from the spec: the camera direction enum (front, rear) with its
raw strings; the native `CameraDirection` enum is not among the given
sources. -/
inductive CameraDirection where
  | rear : CameraDirection
  | front : CameraDirection
deriving DecidableEq, Repr

/-- Modelled from the spec: the raw string of each direction case. -/
def CameraDirection.rawValue : CameraDirection → String
  | .rear => "rear"
  | .front => "front"

/-- Modelled from the spec: `CameraDirection(rawValue:)` — `none` on an
unrecognized string, and a round trip on each case's own raw value. -/
def CameraDirection.fromString (s : String) : Option CameraDirection :=
  if s = "rear" then some .rear
  else if s = "front" then some .front
  else none

/-- Modelled from the spec: the result encoding enum; the native
`CameraResultType` enum is not among the given sources. -/
inductive CameraResultType where
  | base64 : CameraResultType
  | uri : CameraResultType
deriving DecidableEq, Repr

/-- Modelled from the spec: the raw string of each result type case. -/
def CameraResultType.rawValue : CameraResultType → String
  | .base64 => "base64"
  | .uri => "uri"

/-- Modelled from the spec: `CameraResultType(rawValue:)`. -/
def CameraResultType.fromString (s : String) : Option CameraResultType :=
  if s = "base64" then some .base64
  else if s = "uri" then some .uri
  else none

/-- Modelled from the spec: the `CameraSettings` struct (section 3) with its
default initializer `CameraSettings()`; the struct itself is not among the
given sources. `shouldResize` defaults to `false` (no resize dimensions
requested); the remaining defaults are the spec's safe defaults. -/
structure CameraSettings where
  jpegQuality : ℚ := 1
  direction : CameraDirection := .rear
  resultType : CameraResultType := .base64
  width : ℚ := 0
  height : ℚ := 0
  shouldResize : Bool := false
  shouldCorrectOrientation : Bool := true
  forcePortraitOrientation : Bool := true
  mirrorFrontCameraResult : Bool := true
deriving DecidableEq, Repr

/-- The configuration bag carried by a plugin call, as read by
`cameraSettings(from:)` through `call.getFloat` / `call.getString` /
`call.getInt` / `call.getBool`: each known key is either absent or holds a
value, and `unknownKeys` stands for any further keys of the bag, which the
resolver never reads. -/
structure ConfigBag where
  quality : Option ℚ := none
  direction : Option String := none
  resultType : Option String := none
  width : Option Int := none
  height : Option Int := none
  correctOrientation : Option Bool := none
  forcePortraitOrientation : Option Bool := none
  mirrorFrontCameraResult : Option Bool := none
  unknownKeys : List (String × String) := []
deriving DecidableEq, Repr

/-- `PreviewCameraPlugin.cameraSettings(from:)` (Swift plugin layer),
with `defaultDirection = .rear` and `defaultResultType = .base64`. -/
def PreviewCameraPlugin.cameraSettings (bag : ConfigBag) : CameraSettings :=
  let settings : CameraSettings := {}
  let settings := { settings with jpegQuality := min |bag.quality.getD 100 / 100| 1 }
  let settings := { settings with
    direction := (CameraDirection.fromString
      (bag.direction.getD CameraDirection.rear.rawValue)).getD .rear }
  let settings := { settings with
    resultType := (CameraResultType.fromString
      (bag.resultType.getD CameraResultType.base64.rawValue)).getD .base64 }
  let settings := { settings with width := ((bag.width.getD 0 : Int) : ℚ) }
  let settings := { settings with height := ((bag.height.getD 0 : Int) : ℚ) }
  let settings :=
    if settings.width > 0 ∨ settings.height > 0 then
      { settings with shouldResize := true }
    else settings
  let settings := { settings with shouldCorrectOrientation := bag.correctOrientation.getD true }
  let settings := { settings with forcePortraitOrientation := bag.forcePortraitOrientation.getD true }
  { settings with mirrorFrontCameraResult := bag.mirrorFrontCameraResult.getD true }

lemma cameraSettings_jpegQuality (bag : ConfigBag) :
    (PreviewCameraPlugin.cameraSettings bag).jpegQuality =
      min |bag.quality.getD 100 / 100| 1 := by
  simp only [PreviewCameraPlugin.cameraSettings]
  split <;> rfl

lemma cameraSettings_direction (bag : ConfigBag) :
    (PreviewCameraPlugin.cameraSettings bag).direction =
      (CameraDirection.fromString
        (bag.direction.getD CameraDirection.rear.rawValue)).getD .rear := by
  simp only [PreviewCameraPlugin.cameraSettings]
  split <;> rfl

lemma cameraSettings_width (bag : ConfigBag) :
    (PreviewCameraPlugin.cameraSettings bag).width = ((bag.width.getD 0 : Int) : ℚ) := by
  simp only [PreviewCameraPlugin.cameraSettings]
  split <;> rfl

lemma cameraSettings_height (bag : ConfigBag) :
    (PreviewCameraPlugin.cameraSettings bag).height = ((bag.height.getD 0 : Int) : ℚ) := by
  simp only [PreviewCameraPlugin.cameraSettings]
  split <;> rfl

/-- Claim C3: the settings resolver is total and applies the safe defaults:
`jpegQuality` stays in `[0,1]` and is `1` when the quality key is absent;
the direction falls back to rear when the key is absent or unrecognized;
the three correction flags default to `true`; and any unknown keys of the
bag leave the result unchanged. -/
theorem cameraSettings_defaults (bag : ConfigBag) :
    (0 ≤ (PreviewCameraPlugin.cameraSettings bag).jpegQuality ∧
      (PreviewCameraPlugin.cameraSettings bag).jpegQuality ≤ 1) ∧
    (bag.quality = none → (PreviewCameraPlugin.cameraSettings bag).jpegQuality = 1) ∧
    (bag.direction = none →
      (PreviewCameraPlugin.cameraSettings bag).direction = .rear) ∧
    (∀ d, bag.direction = some d → CameraDirection.fromString d = none →
      (PreviewCameraPlugin.cameraSettings bag).direction = .rear) ∧
    (bag.correctOrientation = none →
      (PreviewCameraPlugin.cameraSettings bag).shouldCorrectOrientation = true) ∧
    (bag.forcePortraitOrientation = none →
      (PreviewCameraPlugin.cameraSettings bag).forcePortraitOrientation = true) ∧
    (bag.mirrorFrontCameraResult = none →
      (PreviewCameraPlugin.cameraSettings bag).mirrorFrontCameraResult = true) ∧
    (∀ ks, PreviewCameraPlugin.cameraSettings { bag with unknownKeys := ks } =
      PreviewCameraPlugin.cameraSettings bag) := by
  refine ⟨⟨?_, ?_⟩, ?_, ?_, ?_, ?_, ?_, ?_, fun ks => rfl⟩
  · rw [cameraSettings_jpegQuality]
    exact le_min (abs_nonneg _) zero_le_one
  · rw [cameraSettings_jpegQuality]
    exact min_le_right _ _
  · intro h
    rw [cameraSettings_jpegQuality, h]
    norm_num
  · intro h
    rw [cameraSettings_direction, h]
    rfl
  · intro d hd hnone
    rw [cameraSettings_direction, hd]
    simp [Option.getD, hnone]
  · intro h
    simp [PreviewCameraPlugin.cameraSettings, h]
  · intro h
    simp [PreviewCameraPlugin.cameraSettings, h]
  · intro h
    simp [PreviewCameraPlugin.cameraSettings, h]

/-- Witness for C3: the all-absent bag takes every default, and a bag whose
direction string is unrecognized falls back to rear. -/
theorem cameraSettings_defaults_witness :
    (ConfigBag.mk none none none none none none none none []).quality = none ∧
    (PreviewCameraPlugin.cameraSettings
      ⟨none, none, none, none, none, none, none, none, []⟩).jpegQuality = 1 ∧
    (PreviewCameraPlugin.cameraSettings
      ⟨none, none, none, none, none, none, none, none, []⟩).direction = .rear ∧
    (PreviewCameraPlugin.cameraSettings
      ⟨none, none, none, none, none, none, none, none, []⟩).shouldCorrectOrientation = true ∧
    (PreviewCameraPlugin.cameraSettings
      ⟨none, none, none, none, none, none, none, none, []⟩).forcePortraitOrientation = true ∧
    (PreviewCameraPlugin.cameraSettings
      ⟨none, none, none, none, none, none, none, none, []⟩).mirrorFrontCameraResult = true ∧
    (PreviewCameraPlugin.cameraSettings
      ⟨none, some "selfie", none, none, none, none, none, none, []⟩).direction = .rear :=
  ⟨rfl,
    (cameraSettings_defaults ⟨none, none, none, none, none, none, none, none, []⟩).2.1 rfl,
    (cameraSettings_defaults ⟨none, none, none, none, none, none, none, none, []⟩).2.2.1 rfl,
    (cameraSettings_defaults ⟨none, none, none, none, none, none, none, none, []⟩).2.2.2.2.1 rfl,
    (cameraSettings_defaults ⟨none, none, none, none, none, none, none, none, []⟩).2.2.2.2.2.1 rfl,
    (cameraSettings_defaults ⟨none, none, none, none, none, none, none, none, []⟩).2.2.2.2.2.2.1 rfl,
    (cameraSettings_defaults
      ⟨none, some "selfie", none, none, none, none, none, none, []⟩).2.2.2.1 "selfie" rfl rfl⟩

/-- Claim C4: the resolved settings satisfy the resize invariant —
`shouldResize` is `true` exactly when the resolved width or height is
positive. -/
theorem cameraSettings_shouldResize_iff (bag : ConfigBag) :
    (PreviewCameraPlugin.cameraSettings bag).shouldResize = true ↔
      ((PreviewCameraPlugin.cameraSettings bag).width > 0 ∨
        (PreviewCameraPlugin.cameraSettings bag).height > 0) := by
  rw [cameraSettings_width, cameraSettings_height]
  simp only [PreviewCameraPlugin.cameraSettings]
  split
  next h => exact iff_of_true rfl h
  next h => exact iff_of_false (by simp) h

/-- `CaptureResult` (`definitions.ts`): the file path for a photo or video
taken by the camera, or an error message if any. -/
structure CaptureResult where
  filePath : Option String
  errorMessage : Option String
deriving DecidableEq, Repr

/-- Exactly one of the two `CaptureResult` fields is populated. -/
def CaptureResult.exactlyOnePopulated (r : CaptureResult) : Prop :=
  (r.filePath.isSome = true ∧ r.errorMessage = none) ∨
    (r.filePath = none ∧ r.errorMessage.isSome = true)

/-- The kind of a capture, selecting the `capturePhotoFinished` or the
`captureVideoFinished` event channel. -/
inductive CaptureKind where
  | photo : CaptureKind
  | video : CaptureKind
deriving DecidableEq, Repr

/-- Modelled from the spec: `OutputSink.persist` (section 4.5) — writes the
captured buffer to a file and returns its `file://` URI in `filePath`, or
on a write/encode failure returns a `CaptureResult` with `errorMessage`
set, never raising past this boundary. `written` is the outcome of the
write/encode step. -/
def OutputSink.persist (written : Except String String) : CaptureResult :=
  match written with
  | .ok path => ⟨some path, none⟩
  | .error msg => ⟨none, some msg⟩

/-- Modelled from the spec: the event delivered on the
`capturePhotoFinished` / `captureVideoFinished` channel carries the
`CaptureResult` built by `OutputSink.persist` (sections 2 and 6). -/
structure CaptureFinishedEvent where
  kind : CaptureKind
  data : CaptureResult
deriving DecidableEq, Repr

/-- Modelled from the spec: emission of the terminal capture event for a
resolved capture of the given kind. -/
def emitCaptureFinished (kind : CaptureKind) (written : Except String String) :
    CaptureFinishedEvent :=
  ⟨kind, OutputSink.persist written⟩

/-- Claim C8: every `CaptureResult` delivered through a capture-finished
event channel has exactly one of `filePath` and `errorMessage` populated. -/
theorem captureFinished_exactlyOnePopulated (kind : CaptureKind)
    (written : Except String String) :
    (emitCaptureFinished kind written).data.exactlyOnePopulated := by
  cases written with
  | ok path => exact Or.inl ⟨rfl, rfl⟩
  | error msg => exact Or.inr ⟨rfl, rfl⟩

/-- The options record of `echo`: `{ value: string }`. -/
structure EchoOptions where
  value : String
deriving DecidableEq, Repr

/-- `PreviewCameraWeb.echo` (web implementation): logs and returns its
options argument; it never throws. -/
def PreviewCameraWeb.echo (options : EchoOptions) : Except String EchoOptions :=
  .ok options

/-- Modelled from the spec: the inner `PreviewCamera.echo` of the native
implementation class is not among the given sources; the external
interface documents `echo(options: { value }) => Promise<{ value }>` as the
standard echo operation, returning the given value. -/
def PreviewCamera.echo (value : String) : String :=
  value

/-- Outcome of the native `echo` plugin call: the resolved `{ value }`
payload, or pending when the implementation object is absent (the `if let`
body is skipped and the call is never resolved). -/
inductive EchoOutcome where
  | resolved : String → EchoOutcome
  | pending : EchoOutcome
deriving DecidableEq, Repr

/-- `PreviewCameraPlugin.echo` (Swift plugin layer): reads
`call.getString("value") ?? ""` and, when the implementation object is
loaded, resolves with `implementation.echo(value)`. -/
def PreviewCameraPlugin.echo (loaded : Bool) (value : Option String) : EchoOutcome :=
  let v := value.getD ""
  if loaded then .resolved (PreviewCamera.echo v) else .pending

/-- Claim C9: `echo` is the identity — the web implementation returns its
options argument unchanged, and the native shim with a loaded
implementation resolves with exactly the supplied value. -/
theorem echo_identity :
    (∀ options : EchoOptions, PreviewCameraWeb.echo options = .ok options) ∧
    (∀ v : String, PreviewCameraPlugin.echo true (some v) = .resolved v) :=
  ⟨fun _ => rfl, fun _ => rfl⟩

/-- The methods of the web implementation `PreviewCameraWeb`. -/
inductive WebMethod where
  | echo : WebMethod
  | startPreview : WebMethod
  | stopPreview : WebMethod
  | takePhoto : WebMethod
  | capturePhoto : WebMethod
  | startRecord : WebMethod
  | stopRecord : WebMethod
  | flipCamera : WebMethod
  | getFlashModes : WebMethod
  | setFlashMode : WebMethod
  | isTorchOn : WebMethod
  | enableTorch : WebMethod
deriving DecidableEq, Repr

/-- The argument bag a web call may carry (`echo`'s value, `enableTorch`'s
enable flag); methods without parameters ignore it. -/
structure WebInput where
  value : Option String := none
  enable : Option Bool := none
deriving DecidableEq, Repr

/-- A successful web call return value. -/
inductive WebReturn where
  | unit : WebReturn
  | echoed : EchoOptions → WebReturn
  | torch : Bool → WebReturn
deriving DecidableEq, Repr

/-- Dispatch over `PreviewCameraWeb` (web implementation): `echo` returns
its options; every other method body is `throw new Error('Method not
implemented.')`. -/
def PreviewCameraWeb.call : WebMethod → WebInput → Except String WebReturn
  | .echo, input => (PreviewCameraWeb.echo ⟨input.value.getD ""⟩).map .echoed
  | .startPreview, _ => .error "Method not implemented."
  | .stopPreview, _ => .error "Method not implemented."
  | .takePhoto, _ => .error "Method not implemented."
  | .capturePhoto, _ => .error "Method not implemented."
  | .startRecord, _ => .error "Method not implemented."
  | .stopRecord, _ => .error "Method not implemented."
  | .flipCamera, _ => .error "Method not implemented."
  | .getFlashModes, _ => .error "Method not implemented."
  | .setFlashMode, _ => .error "Method not implemented."
  | .isTorchOn, _ => .error "Method not implemented."
  | .enableTorch, _ => .error "Method not implemented."

/-- Claim C10: on the web platform every plugin operation other than `echo`
fails unconditionally, for every input, by throwing an error with the
message "Method not implemented.". -/
theorem webCall_unimplemented (m : WebMethod) (input : WebInput)
    (h : m ≠ WebMethod.echo) :
    PreviewCameraWeb.call m input = .error "Method not implemented." := by
  cases m
  · exact absurd rfl h
  all_goals rfl

/-- Witness for C10: `startPreview` on the web with an empty input bag. -/
theorem webCall_unimplemented_witness :
    WebMethod.startPreview ≠ WebMethod.echo ∧
    PreviewCameraWeb.call .startPreview ⟨none, none⟩ =
      .error "Method not implemented." :=
  ⟨by decide, webCall_unimplemented .startPreview ⟨none, none⟩ (by decide)⟩
